import Mathlib

/-!
Shallow embedding of the quantitative analytics core of the
`quant-research-system` repository (`quantlib_analyzer.py`, `risk_layer.py`),
together with theorems settling the specification claims about it.

Conventions:
* Python float arithmetic is modelled by exact field arithmetic
  (`ℚ` where everything is algebraic, `ℝ` where `exp`/`log`/`sqrt` occur).
* Python `round(x, d)` is modelled by `roundTo d` below via Mathlib's
  `round` (round-half-up); Python uses banker's rounding, which differs only
  at exact half-way ties, and no claim settled here compares at such a tie.
* Python dicts of string keys are modelled as association lists in insertion
  order; `dict.get(k, d)` is `dictGet`.
* The third-party QuantLib pricing-engine calls inside the `try` block of
  `black_scholes_analysis` are modelled by an oracle parameter `BSEngine`
  (`none` = the engine raised, which the bare `except` turns into zeros).
* `datetime.now().isoformat()` in `RiskManager.analyze` is modelled by an
  explicit clock argument `now : String`.
-/

namespace QuantSystem

variable {α : Type*}

/-- `round(x, d)` of Python: round `x` to `d` decimal places. -/
def roundTo [LinearOrderedField α] [FloorRing α] (d : ℕ) (x : α) : α :=
  (round (x * 10 ^ d) : ℤ) / 10 ^ d

/-- `dict.get(key, default)` over an association list (insertion order). -/
def dictGet (xs : List (String × α)) (key : String) (dflt : α) : α :=
  match xs.find? (fun p => p.1 == key) with
  | some p => p.2
  | none => dflt

/-! ### risk_layer.py : RiskManager -/

/-- Result record of `RiskManager._calculate_risk_metrics`. -/
structure RiskMetrics (α : Type*) where
  risk_level : String
  risk_score : ℕ
  move_contribution : ℕ
  vix_contribution : ℕ
  vol_multiplier : α
  move_value : α
  vix_value : α
deriving DecidableEq

/-- MOVE contribution bucket (lines 79-88 of risk_layer.py; thresholds from
`self.move_thresholds` = {low: 80, medium: 100, high: 120, extreme: 150}). -/
def move_score_of [LinearOrderedField α] (move : α) : ℕ :=
  if move < 80 then 10
  else if move < 100 then 25
  else if move < 120 then 35
  else if move < 150 then 45
  else 50

/-- VIX contribution bucket (lines 91-100; thresholds from
`self.vix_thresholds` = {low: 15, medium: 20, high: 25, extreme: 35}). -/
def vix_score_of [LinearOrderedField α] (vix : α) : ℕ :=
  if vix < 15 then 10
  else if vix < 20 then 25
  else if vix < 25 then 35
  else if vix < 35 then 45
  else 50

/-- `RiskManager._calculate_risk_metrics` (risk_layer.py lines 76-126). -/
def calculate_risk_metrics [LinearOrderedField α] [FloorRing α]
    (move vix : α) : RiskMetrics α :=
  let move_score := move_score_of move
  let vix_score := vix_score_of vix
  let risk_score := move_score + vix_score
  let risk_level :=
    if risk_score < 40 then "LOW"
    else if risk_score < 60 then "MEDIUM"
    else if risk_score < 80 then "HIGH"
    else "EXTREME"
  let vol_multiplier := (vix / 20) * (move / 100)
  { risk_level := risk_level
    risk_score := risk_score
    move_contribution := move_score
    vix_contribution := vix_score
    vol_multiplier := roundTo 3 vol_multiplier
    move_value := move
    vix_value := vix }

/-- Result record of `RiskManager._calculate_position_sizing`. -/
structure PositionSizing (α : Type*) where
  base_allocation : α
  risk_adjustment : α
  adjusted_allocation : α
  max_position_value : α
  stop_loss_pct : α
  stop_loss_value : α
deriving DecidableEq

/-- `RiskManager._calculate_position_sizing` (risk_layer.py lines 128-162).
The risk score handed in by `analyze` is the integer from the metrics. -/
def calculate_position_sizing [LinearOrderedField α] [FloorRing α]
    (risk_score : ℕ) (portfolio_value : α) : PositionSizing α :=
  let base_allocation : α := 0.1
  let risk_adj : α :=
    if risk_score < 40 then 1.2
    else if risk_score < 60 then 1.0
    else if risk_score < 80 then 0.7
    else 0.4
  let adjusted_allocation := base_allocation * risk_adj
  let max_position := portfolio_value * adjusted_allocation
  let stop_loss : α :=
    if risk_score < 40 then 0.05
    else if risk_score < 60 then 0.03
    else 0.02
  { base_allocation := base_allocation
    risk_adjustment := risk_adj
    adjusted_allocation := roundTo 3 adjusted_allocation
    max_position_value := roundTo 0 max_position
    stop_loss_pct := stop_loss
    stop_loss_value := roundTo 0 (max_position * stop_loss) }

/-! ### quantlib_analyzer.py : yield_curve_analysis -/

/-- The tenor map of `yield_curve_analysis` (lines 197-200). -/
def tenor_map [LinearOrderedField α] : List (String × α) :=
  [("1M", 1 / 12), ("3M", 0.25), ("6M", 0.5), ("1Y", 1.0),
   ("2Y", 2.0), ("3Y", 3.0), ("5Y", 5.0), ("7Y", 7.0), ("10Y", 10.0),
   ("30Y", 30.0)]

/-- `tenor in tenor_map` lookup: `some` year-fraction for a recognized label. -/
def tenor_lookup [LinearOrderedField α] (label : String) : Option α :=
  ((tenor_map (α := α)).find? (fun p => p.1 == label)).map (·.2)

/-- Result of `yield_curve_analysis`: either the `{"error": ...}` dict
(line 211) or the full result dict (lines 250-258).  The forward-rate keys
are kept as the numeric tenor pair instead of the formatted f-string. -/
inductive YieldCurveResult (α : Type*) where
  | error (msg : String)
  | ok (curve_shape : String) (slope_bps : α) (interpretation : String)
      (short_rate : α) (long_rate : α)
      (forward_rates : List ((α × α) × α)) (data_points : ℕ)
deriving DecidableEq

/-- Curve-shape field of a `YieldCurveResult` (absent on the error dict). -/
def curve_shape : YieldCurveResult α → String
  | .error _ => "ERROR"
  | .ok s _ _ _ _ _ _ => s

/-- `QuantLibAnalyzer.yield_curve_analysis` (quantlib_analyzer.py
lines 189-258).  The input dict is an association list in insertion order;
dict keys are unique and the tenor map is injective on labels, so the stable
insertion sort on the tenor alone matches Python's lexicographic
`sorted(zip(tenors, yields))`. -/
def yield_curve_analysis [LinearOrderedField α] [FloorRing α]
    (rates : List (String × α)) : YieldCurveResult α :=
  let pts : List (α × α) :=
    rates.filterMap (fun p => (tenor_lookup p.1).map (fun t => (t, p.2)))
  if pts.length < 2 then .error "Insufficient data"
  else
    let sorted := pts.insertionSort (fun p q => p.1 ≤ q.1)
    let tenors := sorted.map (·.1)
    let yields := sorted.map (·.2)
    let short_rate := yields.headD 0
    let long_rate := yields.getLastD 0
    let slope := long_rate - short_rate
    let cs :=
      if slope > 0.5 then "STEEP"
      else if slope > 0 then "NORMAL"
      else if slope > -0.5 then "FLAT"
      else "INVERTED"
    let interpretation :=
      if slope > 0.5 then "경기 확장 기대, 성장주 유리"
      else if slope > 0 then "정상적 경기 환경"
      else if slope > -0.5 then "경기 둔화 우려, 방어적 포지션 권고"
      else "경기 침체 신호, 안전자산 선호"
    let forward_rates :=
      (sorted.zip sorted.tail).map (fun pq =>
        ((pq.1.1, pq.2.1),
          roundTo 3 (((pq.2.2 * pq.2.1 - pq.1.2 * pq.1.1) / (pq.2.1 - pq.1.1))
            * 100)))
    .ok cs (roundTo 1 (slope * 10000)) interpretation
      (roundTo 3 (short_rate * 100)) (roundTo 3 (long_rate * 100))
      forward_rates tenors.length

/-! ### quantlib_analyzer.py : bond_analysis -/

/-- Result record of `bond_analysis` (lines 310-324); the `inputs` echo of
the arguments is omitted (it is a rounded copy of the inputs).
`rate_sensitivity` keeps the rate shock `dr` as the key. -/
structure BondResult (α : Type*) where
  price : α
  premium_discount : String
  current_yield : α
  macaulay_duration : α
  modified_duration : α
  convexity : α
  rate_sensitivity : List (α × α × α)
deriving DecidableEq

/-- `QuantLibAnalyzer.bond_analysis` (quantlib_analyzer.py lines 260-324).
`int(years_to_maturity * frequency)` truncates toward zero; for the
nonnegative products of the intended domain this is the floor. -/
def bond_analysis [LinearOrderedField α] [FloorRing α]
    (face_value coupon_rate ytm years_to_maturity : α)
    (frequency : ℕ) : BondResult α :=
  let n_periods : ℕ := (⌊years_to_maturity * (frequency : α)⌋).toNat
  let coupon := face_value * coupon_rate / (frequency : α)
  let ytm_period := ytm / (frequency : α)
  let pv_coupons := ∑ t ∈ Finset.Icc 1 n_periods, coupon / (1 + ytm_period) ^ t
  let pv_face := face_value / (1 + ytm_period) ^ n_periods
  let price := pv_coupons + pv_face
  let weighted_cf :=
    (∑ t ∈ Finset.Icc 1 n_periods, (t : α) * coupon / (1 + ytm_period) ^ t)
      + (n_periods : α) * face_value / (1 + ytm_period) ^ n_periods
  let mac_duration := weighted_cf / price / (frequency : α)
  let mod_duration := mac_duration / (1 + ytm_period)
  let convexity_sum :=
    (∑ t ∈ Finset.Icc 1 n_periods,
        (t : α) * ((t : α) + 1) * coupon / (1 + ytm_period) ^ (t + 2))
      + (n_periods : α) * ((n_periods : α) + 1) * face_value
          / (1 + ytm_period) ^ (n_periods + 2)
  let convexity := convexity_sum / (price * (frequency : α) ^ 2)
  let rate_changes : List α := [-0.01, -0.005, 0.005, 0.01]
  let price_changes :=
    rate_changes.map (fun dr =>
      let approx_change := -mod_duration * dr + 0.5 * convexity * dr ^ 2
      (dr, roundTo 2 (price * (1 + approx_change)),
        roundTo 3 (approx_change * 100)))
  { price := roundTo 2 price
    premium_discount :=
      if price > face_value then "Premium"
      else if price < face_value then "Discount"
      else "Par"
    current_yield := roundTo 3 ((coupon * (frequency : α) / price) * 100)
    macaulay_duration := roundTo 3 mac_duration
    modified_duration := roundTo 3 mod_duration
    convexity := roundTo 3 convexity
    rate_sensitivity := price_changes }

/-! ### quantlib_analyzer.py : volatility_surface_analysis -/

/-- Result record of `volatility_surface_analysis` (lines 383-396). -/
structure VolSurfaceResult (α : Type*) where
  spot : α
  atm_volatility : α
  volatility_smile : List (String × α)
  skew : α
  risk_reversal : α
  butterfly : α
  skew_interpretation : String
  term_structure : List (String × α)
  term_shape : String
  term_interpretation : String
deriving DecidableEq

/-- `QuantLibAnalyzer.volatility_surface_analysis` (quantlib_analyzer.py
lines 326-396).  `vol_data = none` models the Python default `None`. -/
def volatility_surface_analysis [LinearOrderedField α] [FloorRing α]
    (spot rate : α) (vol_data : Option (List (String × α))) :
    VolSurfaceResult α :=
  let vd : List (String × α) :=
    match vol_data with
    | none =>
        let atm : α := 0.18
        [("10D_Put", atm * 1.3), ("25D_Put", atm * 1.15), ("ATM", atm),
         ("25D_Call", atm * 0.95), ("10D_Call", atm * 0.90)]
    | some d => d
  let put_vol := dictGet vd "25D_Put" (dictGet vd "ATM" 0.18)
  let call_vol := dictGet vd "25D_Call" (dictGet vd "ATM" 0.18)
  let atm_vol := dictGet vd "ATM" 0.18
  let skew := put_vol - call_vol
  let risk_reversal := call_vol - put_vol
  let butterfly := (put_vol + call_vol) / 2 - atm_vol
  let skew_interpretation :=
    if skew > 0.03 then "강한 하방 리스크 프리미엄 - 시장 불안 신호"
    else if skew > 0.01 then "정상적 하방 헤지 수요"
    else if skew > -0.01 then "균형 잡힌 변동성 구조"
    else "상방 기대감 - 콜옵션 수요 증가"
  let ts_1w := roundTo 4 (atm_vol * 1.1)
  let ts_1m := roundTo 4 atm_vol
  let ts_3m := roundTo 4 (atm_vol * 0.95)
  let ts_6m := roundTo 4 (atm_vol * 0.92)
  let ts_1y := roundTo 4 (atm_vol * 0.90)
  let term_shape := if ts_1w > ts_1m then "BACKWARDATION" else "CONTANGO"
  let term_interpretation :=
    if ts_1w > ts_1m then "단기 불확실성 높음 - 이벤트 리스크"
    else "정상적 변동성 기간구조"
  { spot := spot
    atm_volatility := roundTo 2 (atm_vol * 100)
    volatility_smile := vd.map (fun p => (p.1, roundTo 2 (p.2 * 100)))
    skew := roundTo 2 (skew * 100)
    risk_reversal := roundTo 2 (risk_reversal * 100)
    butterfly := roundTo 2 (butterfly * 100)
    skew_interpretation := skew_interpretation
    term_structure :=
      [("1W", roundTo 2 (ts_1w * 100)), ("1M", roundTo 2 (ts_1m * 100)),
       ("3M", roundTo 2 (ts_3m * 100)), ("6M", roundTo 2 (ts_6m * 100)),
       ("1Y", roundTo 2 (ts_1y * 100))]
    term_shape := term_shape
    term_interpretation := term_interpretation }

/-! ### quantlib_analyzer.py : vasicek_analysis (real-valued: exp/log/sqrt) -/

/-- Result record of `vasicek_analysis` (lines 76-90); `expected_path` and
`rate_volatility` keep the tenor (in years) as the key. -/
structure VasicekResult where
  r0_param : ℝ
  kappa_param : ℝ
  theta_param : ℝ
  sigma_param : ℝ
  expected_path : List (ℝ × ℝ)
  rate_volatility : List (ℝ × ℝ)
  zcb_prices : List (ℝ × ℝ × ℝ)
  scenarios : List (String × ℝ × ℝ)
  half_life_years : ℝ
  long_term_rate : ℝ

/-- The fixed tenor list of `vasicek_analysis` (line 40). -/
def vasicek_times : List ℝ := [0.25, 0.5, 1.0, 2.0, 3.0, 5.0, 10.0]

/-- The zero-coupon closed form `vasicek_zcb_price` (lines 55-58). -/
noncomputable def vasicek_zcb_price (r t a b sigma : ℝ) : ℝ :=
  let B := (1 - Real.exp (-(a * t))) / a
  let A := Real.exp ((b - sigma ^ 2 / (2 * a ^ 2)) * (B - t)
    - (sigma ^ 2 / (4 * a)) * B ^ 2)
  A * Real.exp (-(B * r))

/-- `QuantLibAnalyzer.vasicek_analysis` (quantlib_analyzer.py lines 23-90). -/
noncomputable def vasicek_analysis (r0 kappa theta sigma : ℝ) : VasicekResult :=
  let a := kappa
  let b := theta
  let expected_rates := vasicek_times.map (fun t =>
    (t, roundTo 3 ((r0 * Real.exp (-(a * t)) + b * (1 - Real.exp (-(a * t))))
      * 100)))
  let rate_std := vasicek_times.map (fun t =>
    (t, roundTo 3 (Real.sqrt ((sigma ^ 2 / (2 * a)) * (1 - Real.exp (-(2 * a * t))))
      * 100)))
  let zcb := ([1, 2, 5, 10] : List ℝ).map (fun t =>
    let price := vasicek_zcb_price r0 t a b sigma
    (t, roundTo 4 price, roundTo 3 (-Real.log price / t * 100)))
  { r0_param := roundTo 3 (r0 * 100)
    kappa_param := kappa
    theta_param := roundTo 3 (theta * 100)
    sigma_param := roundTo 3 (sigma * 100)
    expected_path := expected_rates
    rate_volatility := rate_std
    zcb_prices := zcb
    scenarios :=
      [("base", roundTo 2 (r0 * 100), 0.5),
       ("up_1std", roundTo 2 ((r0 + sigma) * 100), 0.25),
       ("down_1std", roundTo 2 ((r0 - sigma) * 100), 0.25)]
    half_life_years := roundTo 2 (Real.log 2 / a)
    long_term_rate := roundTo 3 (theta * 100) }

/-! ### quantlib_analyzer.py : black_scholes_analysis -/

/-- The six raw numbers produced inside the `try` block of
`black_scholes_analysis` by the third-party engine: `NPV`, `delta`, `gamma`,
raw annual `theta`, raw `vega`, raw `rho`. -/
structure BSRaw where
  price : ℝ
  delta : ℝ
  gamma : ℝ
  theta : ℝ
  vega : ℝ
  rho : ℝ

/-- Oracle for the third-party QuantLib engine used by
`black_scholes_analysis`: a function of (spot, strike, rate, volatility,
maturity_days, option_type).  `none` models the engine raising (the bare
`except` of lines 144-145 then zeroes every figure). -/
abbrev BSEngine : Type := ℝ → ℝ → ℝ → ℝ → ℤ → String → Option BSRaw

/-- Result record of `black_scholes_analysis` (lines 163-187); the `inputs`
echo is omitted (it is a rounded copy of the arguments). -/
structure BSResult where
  price : ℝ
  delta : ℝ
  gamma : ℝ
  theta : ℝ
  vega : ℝ
  rho : ℝ
  moneyness : String
  intrinsic_value : ℝ
  time_value : ℝ
  breakeven : ℝ

/-- `QuantLibAnalyzer.black_scholes_analysis` (quantlib_analyzer.py
lines 92-187), with the engine calls of the `try` block abstracted by the
`engine` oracle. -/
noncomputable def black_scholes_analysis (engine : BSEngine)
    (spot strike rate volatility : ℝ) (maturity_days : ℤ)
    (option_type : String) : BSResult :=
  let raw := engine spot strike rate volatility maturity_days option_type
  let price := match raw with | some r => r.price | none => 0
  let delta := match raw with | some r => r.delta | none => 0
  let gamma := match raw with | some r => r.gamma | none => 0
  let theta := match raw with | some r => r.theta / 365 | none => 0
  let vega := match raw with | some r => r.vega / 100 | none => 0
  let rho := match raw with | some r => r.rho / 100 | none => 0
  let breakeven := if option_type.toLower == "call" then strike + price
    else strike - price
  let moneyness :=
    if option_type.toLower == "call" then
      if spot > strike then "ITM" else if spot < strike then "OTM" else "ATM"
    else
      if spot < strike then "ITM" else if spot > strike then "OTM" else "ATM"
  let intrinsic :=
    if option_type.toLower == "call" then max 0 (spot - strike)
    else max 0 (strike - spot)
  let time_value := price - intrinsic
  { price := roundTo 4 price
    delta := roundTo 4 delta
    gamma := roundTo 6 gamma
    theta := roundTo 4 theta
    vega := roundTo 4 vega
    rho := roundTo 4 rho
    moneyness := moneyness
    intrinsic_value := roundTo 4 intrinsic
    time_value := roundTo 4 time_value
    breakeven := roundTo 2 breakeven }

/-! ### quantlib_analyzer.py : comprehensive_analysis -/

/-- Result record of `comprehensive_analysis` (lines 398-464). -/
structure ComprehensiveResult where
  vasicek : VasicekResult
  yield_curve : YieldCurveResult ℝ
  volatility : VolSurfaceResult ℝ
  bond_10y : BondResult ℝ
  option_atm : BSResult

/-- `QuantLibAnalyzer.comprehensive_analysis` (quantlib_analyzer.py
lines 398-464).  `market_data` is the input dict as an association list. -/
noncomputable def comprehensive_analysis (engine : BSEngine)
    (market_data : List (String × ℝ)) : ComprehensiveResult :=
  let r0 := dictGet market_data "us_10y" 0.0427
  let vasicek := vasicek_analysis r0 0.25 0.035 0.01
  let rates : List (String × ℝ) :=
    [("3M", dictGet market_data "us_3m" 0.045),
     ("2Y", dictGet market_data "us_2y" 0.0359),
     ("10Y", dictGet market_data "us_10y" 0.0427),
     ("30Y", dictGet market_data "us_30y" 0.045)]
  let yield_curve := yield_curve_analysis rates
  let vix := dictGet market_data "vix" 18.0
  let spot := dictGet market_data "kospi" 2650
  let volatility := volatility_surface_analysis spot r0
    (some [("10D_Put", vix / 100 * 1.3), ("25D_Put", vix / 100 * 1.15),
           ("ATM", vix / 100), ("25D_Call", vix / 100 * 0.95),
           ("10D_Call", vix / 100 * 0.90)])
  let bond_10y := bond_analysis 10000 0.04 r0 10 2
  let option_atm := black_scholes_analysis engine spot spot r0 (vix / 100)
    30 "call"
  { vasicek := vasicek
    yield_curve := yield_curve
    volatility := volatility
    bond_10y := bond_10y
    option_atm := option_atm }

/-! ### risk_layer.py : _calculate_var and analyze -/

/-- `daily_vol = vix / 100 / np.sqrt(252)` (risk_layer.py line 168). -/
noncomputable def daily_vol (vix : ℝ) : ℝ := vix / 100 / Real.sqrt 252

/-- `z_score.get(confidence, 1.645)` (risk_layer.py lines 171-172). -/
noncomputable def z_of (confidence : ℝ) : ℝ :=
  if confidence = 0.90 then 1.28
  else if confidence = 0.95 then 1.645
  else if confidence = 0.99 then 2.33
  else 1.645

/-- `var_1d = portfolio_value * daily_vol * z` (risk_layer.py line 174). -/
noncomputable def var_1d (portfolio_value vix confidence : ℝ) : ℝ :=
  portfolio_value * daily_vol vix * z_of confidence

/-- `var_5d = var_1d * np.sqrt(5)` (risk_layer.py line 175). -/
noncomputable def var_5d (portfolio_value vix confidence : ℝ) : ℝ :=
  var_1d portfolio_value vix confidence * Real.sqrt 5

/-- `var_20d = var_1d * np.sqrt(20)` (risk_layer.py line 176). -/
noncomputable def var_20d (portfolio_value vix confidence : ℝ) : ℝ :=
  var_1d portfolio_value vix confidence * Real.sqrt 20

/-- Result record of `_calculate_var` (lines 182-190); the formatted
`interpretation` presentation string is omitted. -/
structure VarResult where
  confidence_level : ℝ
  daily_volatility : ℝ
  var_1d : ℝ
  var_5d : ℝ
  var_20d : ℝ
  cvar_1d : ℝ

/-- `RiskManager._calculate_var` (risk_layer.py lines 164-190). -/
noncomputable def calculate_var (portfolio_value vix : ℝ)
    (confidence : ℝ) : VarResult :=
  { confidence_level := confidence
    daily_volatility := roundTo 3 (daily_vol vix * 100)
    var_1d := roundTo 0 (var_1d portfolio_value vix confidence)
    var_5d := roundTo 0 (var_5d portfolio_value vix confidence)
    var_20d := roundTo 0 (var_20d portfolio_value vix confidence)
    cvar_1d := roundTo 0 (var_1d portfolio_value vix confidence * 1.25) }

/-- Result record of `RiskManager.analyze` (risk_layer.py lines 68-74). -/
structure AnalyzeResult where
  timestamp : String
  risk_metrics : RiskMetrics ℝ
  position_sizing : PositionSizing ℝ
  var_analysis : VarResult
  quantlib : ComprehensiveResult

/-- `RiskManager.analyze` (risk_layer.py lines 33-74).  `now` is the value
of `datetime.now().isoformat()` (line 69), made explicit as an argument;
`market_data = []` models the Python default `None` (replaced by `{}`). -/
noncomputable def analyze (engine : BSEngine) (now : String)
    (move_value vix_value portfolio_value : ℝ)
    (market_data : List (String × ℝ)) : AnalyzeResult :=
  let risk_metrics := calculate_risk_metrics move_value vix_value
  let position_sizing :=
    calculate_position_sizing risk_metrics.risk_score portfolio_value
  let ql_data : List (String × ℝ) :=
    [("us_10y", dictGet market_data "us_10y" 0.0427),
     ("us_2y", dictGet market_data "us_2y" 0.0359),
     ("us_30y", dictGet market_data "us_30y" 0.045),
     ("vix", vix_value),
     ("kospi", dictGet market_data "kospi" 2650)]
  let quantlib_analysis := comprehensive_analysis engine ql_data
  let var_analysis := calculate_var portfolio_value vix_value 0.95
  { timestamp := now
    risk_metrics := risk_metrics
    position_sizing := position_sizing
    var_analysis := var_analysis
    quantlib := quantlib_analysis }

/-! ### Helper lemmas -/

theorem round_mono {α : Type*} [LinearOrderedField α] [FloorRing α]
    {x y : α} (h : x ≤ y) : round x ≤ round y := by
  rw [round_eq, round_eq]
  exact Int.floor_le_floor (by linarith)

theorem abs_roundTo_sub {α : Type*} [LinearOrderedField α] [FloorRing α]
    (d : ℕ) (x : α) : |roundTo d x - x| ≤ 1 / (2 * 10 ^ d) := by
  have h10 : (0 : α) < 10 ^ d := by positivity
  have e : roundTo d x - x = -((x * 10 ^ d - round (x * 10 ^ d)) / 10 ^ d) := by
    rw [roundTo]
    field_simp
    ring
  rw [e, abs_neg, abs_div, abs_of_pos h10, div_le_div_iff₀ h10 (by positivity)]
  nlinarith [abs_sub_round (x * 10 ^ d), h10]

theorem roundTo_lt_of_add_le {α : Type*} [LinearOrderedField α] [FloorRing α]
    {d : ℕ} {x y : α} (h : x + (10 ^ d)⁻¹ ≤ y) : roundTo d x < roundTo d y := by
  have h10 : (0 : α) < 10 ^ d := by positivity
  rw [roundTo, roundTo, div_lt_div_iff_of_pos_right h10]
  have hs : x * 10 ^ d + 1 ≤ y * 10 ^ d := by
    have := mul_le_mul_of_nonneg_right h (le_of_lt h10)
    rwa [add_mul, inv_mul_cancel₀ (ne_of_gt h10)] at this
  have : round (x * 10 ^ d) + 1 ≤ round (y * 10 ^ d) := by
    rw [show round (x * 10 ^ d) + 1 = round (x * 10 ^ d + 1) from
      (round_add_one _).symm]
    exact round_mono hs
  exact_mod_cast this

theorem move_score_of_mono {α : Type*} [LinearOrderedField α]
    {m m' : α} (h : m ≤ m') : move_score_of m ≤ move_score_of m' := by
  unfold move_score_of
  split_ifs <;> first | omega | (exfalso; linarith)

theorem vix_score_of_mono {α : Type*} [LinearOrderedField α]
    {v v' : α} (h : v ≤ v') : vix_score_of v ≤ vix_score_of v' := by
  unfold vix_score_of
  split_ifs <;> first | omega | (exfalso; linarith)

theorem move_score_of_bounds {α : Type*} [LinearOrderedField α] (m : α) :
    10 ≤ move_score_of m ∧ move_score_of m ≤ 50 := by
  unfold move_score_of
  split_ifs <;> omega

theorem vix_score_of_bounds {α : Type*} [LinearOrderedField α] (v : α) :
    10 ≤ vix_score_of v ∧ vix_score_of v ≤ 50 := by
  unfold vix_score_of
  split_ifs <;> omega

theorem filterMap_eq_filterMap_filter {β γ : Type*} (f : β → Option γ) :
    ∀ l : List β,
      l.filterMap f = (l.filter (fun b => (f b).isSome)).filterMap f := by
  intro l
  induction l with
  | nil => rfl
  | cons a l ih =>
      cases h : f a with
      | none => simp [List.filterMap_cons, List.filter_cons, h, ih]
      | some c => simp [List.filterMap_cons, List.filter_cons, h, ih]

/-! ### Claim theorems -/

/-- C1: the spec says the curve-shape thresholds sit at slope = ±0.5% =
±0.005 (rates being decimal fractions), but the code of
`yield_curve_analysis` compares the decimal-fraction slope against the
literals `0.5` and `-0.5` (50 percentage points).  At the curve
2Y = 3.59%, 10Y = 4.27% the slope is 0.0068 > 0.005, which the claim
classifies STEEP, yet the code returns NORMAL. -/
theorem c1_threshold_divergence :
    curve_shape (yield_curve_analysis
        ([("2Y", 0.0359), ("10Y", 0.0427)] : List (String × ℚ))) = "NORMAL" ∧
    ((0.0427 : ℚ) - 0.0359 > 0.005) ∧
    curve_shape (yield_curve_analysis
        ([("2Y", 0.0359), ("10Y", 0.0427)] : List (String × ℚ))) ≠ "STEEP" := by
  have h : curve_shape (yield_curve_analysis
      ([("2Y", 0.0359), ("10Y", 0.0427)] : List (String × ℚ))) = "NORMAL" := by
    simp only [yield_curve_analysis, tenor_lookup, tenor_map, curve_shape,
      List.insertionSort, List.orderedInsert, List.filterMap_cons,
      List.filterMap_nil, Function.comp, Option.map, List.find?,
      String.reduceBEq]
    norm_num
  exact ⟨h, by norm_num, by simp [h]⟩

/-- C5: `_calculate_risk_metrics` buckets MOVE at thresholds 80/100/120/150
into {10,25,35,45,50}, buckets VIX at 15/20/25/35 identically, sums the two
contributions into the risk score, assigns the level at 40/60/80, and on
MOVE=99, VIX=18 returns score 25+25 = 50 with level MEDIUM. -/
theorem c5_risk_bucketing :
    (∀ m v : ℚ, 0 ≤ m → 0 ≤ v →
      (calculate_risk_metrics m v).move_contribution =
        (if m < 80 then 10 else if m < 100 then 25 else if m < 120 then 35
         else if m < 150 then 45 else 50) ∧
      (calculate_risk_metrics m v).vix_contribution =
        (if v < 15 then 10 else if v < 20 then 25 else if v < 25 then 35
         else if v < 35 then 45 else 50) ∧
      (calculate_risk_metrics m v).risk_score =
        (calculate_risk_metrics m v).move_contribution +
          (calculate_risk_metrics m v).vix_contribution ∧
      (calculate_risk_metrics m v).risk_level =
        (if (calculate_risk_metrics m v).risk_score < 40 then "LOW"
         else if (calculate_risk_metrics m v).risk_score < 60 then "MEDIUM"
         else if (calculate_risk_metrics m v).risk_score < 80 then "HIGH"
         else "EXTREME")) ∧
    (calculate_risk_metrics (99 : ℚ) 18).move_contribution = 25 ∧
    (calculate_risk_metrics (99 : ℚ) 18).vix_contribution = 25 ∧
    (calculate_risk_metrics (99 : ℚ) 18).risk_score = 50 ∧
    (calculate_risk_metrics (99 : ℚ) 18).risk_level = "MEDIUM" := by
  refine ⟨fun m v _ _ => ⟨rfl, rfl, rfl, rfl⟩, ?_, ?_, ?_, ?_⟩ <;>
    norm_num [calculate_risk_metrics, move_score_of, vix_score_of]

/-- Witness for C5 at the concrete scenario MOVE=99, VIX=18. -/
theorem c5_risk_bucketing_witness :
    (calculate_risk_metrics (99 : ℚ) 18).move_contribution =
      (if (99 : ℚ) < 80 then 10 else if (99 : ℚ) < 100 then 25
       else if (99 : ℚ) < 120 then 35 else if (99 : ℚ) < 150 then 45
       else 50) :=
  (c5_risk_bucketing.1 99 18 (by norm_num) (by norm_num)).1

/-- C6: the composite risk score is monotonically non-decreasing in MOVE
with VIX fixed and in VIX with MOVE fixed, and always lies in [20, 100]. -/
theorem c6_risk_score_monotone_bounded :
    ∀ m m' v v' : ℚ, m ≤ m' → v ≤ v' →
      (calculate_risk_metrics m v).risk_score ≤
        (calculate_risk_metrics m' v).risk_score ∧
      (calculate_risk_metrics m v).risk_score ≤
        (calculate_risk_metrics m v').risk_score ∧
      20 ≤ (calculate_risk_metrics m v).risk_score ∧
      (calculate_risk_metrics m v).risk_score ≤ 100 := by
  intro m m' v v' hm hv
  have e : ∀ a b : ℚ, (calculate_risk_metrics a b).risk_score =
      move_score_of a + vix_score_of b := fun a b => rfl
  rw [e, e, e]
  have h1 := move_score_of_mono (α := ℚ) hm
  have h2 := vix_score_of_mono (α := ℚ) hv
  have h3 := move_score_of_bounds m
  have h4 := vix_score_of_bounds v
  omega

/-- Witness for C6 at MOVE 99 ≤ 120, VIX 18 ≤ 30. -/
theorem c6_risk_score_monotone_bounded_witness :
    (calculate_risk_metrics (99 : ℚ) 18).risk_score ≤
      (calculate_risk_metrics (120 : ℚ) 18).risk_score ∧
    20 ≤ (calculate_risk_metrics (99 : ℚ) 18).risk_score :=
  ⟨(c6_risk_score_monotone_bounded 99 120 18 30 (by norm_num) (by norm_num)).1,
   (c6_risk_score_monotone_bounded 99 120 18 30 (by norm_num)
     (by norm_num)).2.2.1⟩

/-- C9: `yield_curve_analysis` silently drops every tenor label outside the
recognized set (the result is unchanged if the unrecognized entries are
removed first), and with fewer than 2 usable points it returns the explicit
error-tagged insufficient-data result. -/
theorem c9_drop_unrecognized_and_insufficient :
    ∀ rates : List (String × ℚ),
      yield_curve_analysis rates =
        yield_curve_analysis
          (rates.filter (fun p => (tenor_lookup (α := ℚ) p.1).isSome)) ∧
      ((rates.filterMap (fun p =>
          (tenor_lookup (α := ℚ) p.1).map (fun t => (t, p.2)))).length < 2 →
        yield_curve_analysis rates =
          YieldCurveResult.error "Insufficient data") := by
  intro rates
  have hpts : ((rates.filter fun p => (tenor_lookup (α := ℚ) p.1).isSome).filterMap
      (fun p => (tenor_lookup (α := ℚ) p.1).map (fun t => (t, p.2)))) =
      rates.filterMap
        (fun p => (tenor_lookup (α := ℚ) p.1).map (fun t => (t, p.2))) := by
    conv_rhs => rw [filterMap_eq_filterMap_filter]
    congr 1
    apply List.filter_congr
    intro p _
    cases h : tenor_lookup (α := ℚ) p.1 <;> simp [h]
  constructor
  · simp only [yield_curve_analysis]
    rw [hpts]
  · intro h
    simp only [yield_curve_analysis]
    rw [if_pos h]

/-- Witness for C9: the single unrecognized label "XX" leaves fewer than 2
usable points and the error-tagged result is returned. -/
theorem c9_drop_unrecognized_and_insufficient_witness :
    yield_curve_analysis [("XX", (0.05 : ℚ))] =
      YieldCurveResult.error "Insufficient data" := by
  apply (c9_drop_unrecognized_and_insufficient [("XX", (0.05 : ℚ))]).2
  simp [tenor_lookup, tenor_map, List.find?, String.reduceBEq]

/-- The 1W entry of the volatility term structure strictly exceeds the 1M
entry after rounding whenever the ATM volatility is at least 0.001. -/
theorem roundTo_backwardation {α : Type*} [LinearOrderedField α] [FloorRing α]
    {a : α} (h : 0.001 ≤ a) : roundTo 4 a < roundTo 4 (a * 1.1) := by
  apply roundTo_lt_of_add_le
  have e : ((10 : α) ^ 4)⁻¹ = 0.0001 := by norm_num
  rw [e]
  nlinarith

/-- C10: the term structure of `volatility_surface_analysis` is built at the
fixed ratios 1.10 (1W) and 1.00 (1M) of the ATM volatility, so for every
ATM volatility ≥ 0.001 the term shape is BACKWARDATION (the CONTANGO branch
is unreachable there), and every call through `comprehensive_analysis` with
vix ≥ 0.1 reports BACKWARDATION. -/
theorem c10_backwardation :
    (∀ (spot rate : ℚ) (vd : List (String × ℚ)),
        0.001 ≤ dictGet vd "ATM" 0.18 →
        (volatility_surface_analysis spot rate (some vd)).term_shape =
          "BACKWARDATION") ∧
    (∀ (engine : BSEngine) (md : List (String × ℝ)),
        0.1 ≤ dictGet md "vix" 18 →
        (comprehensive_analysis engine md).volatility.term_shape =
          "BACKWARDATION") := by
  constructor
  · intro spot rate vd h
    have key := roundTo_backwardation h
    simp only [volatility_surface_analysis]
    rw [if_pos key]
  · intro engine md h
    have h18 : (18.0 : ℝ) = 18 := by norm_num
    have hatm : dictGet [("10D_Put", dictGet md "vix" 18 / 100 * 1.3),
        ("25D_Put", dictGet md "vix" 18 / 100 * 1.15),
        ("ATM", dictGet md "vix" 18 / 100),
        ("25D_Call", dictGet md "vix" 18 / 100 * 0.95),
        ("10D_Call", dictGet md "vix" 18 / 100 * 0.90)] "ATM" (0.18 : ℝ) =
        dictGet md "vix" 18 / 100 := by
      simp [dictGet, List.find?, String.reduceBEq]
    have h1 : (0.001 : ℝ) ≤ dictGet md "vix" 18 / 100 := by linarith
    have key := roundTo_backwardation h1
    simp only [comprehensive_analysis, volatility_surface_analysis, h18]
    rw [hatm, if_pos key]

/-- Witness for C10 at the concrete smile with ATM volatility 0.18. -/
theorem c10_backwardation_witness :
    (0.001 : ℚ) ≤ dictGet [("ATM", (0.18 : ℚ))] "ATM" 0.18 ∧
    (volatility_surface_analysis (2650 : ℚ) 0.0427
      (some [("ATM", (0.18 : ℚ))])).term_shape = "BACKWARDATION" := by
  have h : (0.001 : ℚ) ≤ dictGet [("ATM", (0.18 : ℚ))] "ATM" 0.18 := by
    simp [dictGet, List.find?, String.reduceBEq]
    norm_num
  exact ⟨h, c10_backwardation.1 2650 0.0427 [("ATM", (0.18 : ℚ))] h⟩

/-- C3 counterexample: the record returned by `RiskManager.analyze` embeds
`datetime.now().isoformat()`, so two invocations at the same market inputs
but different clock readings return different results. -/
theorem c3_counterexample :
    analyze (fun _ _ _ _ _ _ => none) "2025-01-01T00:00:00" 99 18 100000000 []
      ≠
    analyze (fun _ _ _ _ _ _ => none) "2025-01-01T00:00:01" 99 18 100000000 []
    := by
  intro h
  have ht := congrArg AnalyzeResult.timestamp h
  simp only [analyze] at ht
  exact absurd ht (by simp)

/-- C3 amended: apart from the timestamp field, `RiskManager.analyze` is a
pure function of its inputs — every other component of two invocations at
the same (move, vix, portfolio, market_data) coincides, whatever the two
clock readings were; in particular the embedded `comprehensive_analysis`
report is identical. -/
theorem c3_deterministic_modulo_timestamp :
    ∀ (engine : BSEngine) (t1 t2 : String) (mv vv pv : ℝ)
      (md : List (String × ℝ)),
      (analyze engine t1 mv vv pv md).risk_metrics =
        (analyze engine t2 mv vv pv md).risk_metrics ∧
      (analyze engine t1 mv vv pv md).position_sizing =
        (analyze engine t2 mv vv pv md).position_sizing ∧
      (analyze engine t1 mv vv pv md).var_analysis =
        (analyze engine t2 mv vv pv md).var_analysis ∧
      (analyze engine t1 mv vv pv md).quantlib =
        (analyze engine t2 mv vv pv md).quantlib :=
  fun _ _ _ _ _ _ _ => ⟨rfl, rfl, rfl, rfl⟩

/-- C8 counterexample: the reported VaR figures are rounded to whole
currency units (`round(var, 0)`), so the ratio of the reported 5-day and
1-day figures is a ratio of integers — a rational number — and cannot equal
the irrational √5 exactly.  Concretely at portfolio 100,000,000 and VIX 18
the reported ratio differs from √5. -/
theorem c8_counterexample :
    ¬ ((calculate_var 100000000 18 0.95).var_5d /
        (calculate_var 100000000 18 0.95).var_1d = Real.sqrt 5) := by
  intro h
  simp only [calculate_var, roundTo] at h
  norm_num at h
  have h5 : Irrational (Real.sqrt 5) := by
    simpa using (by norm_num : Nat.Prime 5).irrational_sqrt
  refine h5 ⟨(round (var_5d 100000000 18 (19/20)) : ℚ) /
    (round (var_1d 100000000 18 (19/20)) : ℚ), ?_⟩
  push_cast
  exact h

/-- C8 amended: the square-root-of-time scaling holds exactly for the
computed (pre-rounding) VaR quantities: for every portfolio value, VIX and
confidence level, `var_5d = √5 · var_1d` and `var_20d = √20 · var_1d`, and
whenever `var_1d ≠ 0` the ratios equal √5 and √20 exactly; the reported
fields only carry this relation up to the final whole-unit rounding. -/
theorem c8_sqrt_time_scaling :
    ∀ pv vix conf : ℝ,
      var_5d pv vix conf = Real.sqrt 5 * var_1d pv vix conf ∧
      var_20d pv vix conf = Real.sqrt 20 * var_1d pv vix conf ∧
      (var_1d pv vix conf ≠ 0 →
        var_5d pv vix conf / var_1d pv vix conf = Real.sqrt 5 ∧
        var_20d pv vix conf / var_1d pv vix conf = Real.sqrt 20) := by
  intro pv vix conf
  refine ⟨mul_comm _ _, mul_comm _ _, fun h => ⟨?_, ?_⟩⟩
  · rw [var_5d, mul_comm, mul_div_assoc, div_self h, mul_one]
  · rw [var_20d, mul_comm, mul_div_assoc, div_self h, mul_one]

/-- Witness for C8 (amended) at portfolio 100,000,000, VIX 18,
confidence 0.95, where `var_1d` is nonzero. -/
theorem c8_sqrt_time_scaling_witness :
    var_1d 100000000 18 0.95 ≠ 0 ∧
    var_5d 100000000 18 0.95 / var_1d 100000000 18 0.95 = Real.sqrt 5 := by
  have hz : z_of (0.95 : ℝ) = 1.645 := by norm_num [z_of]
  have hpos : 0 < var_1d 100000000 18 0.95 := by
    rw [var_1d, hz, daily_vol]
    positivity
  exact ⟨ne_of_gt hpos,
    ((c8_sqrt_time_scaling 100000000 18 0.95).2.2 (ne_of_gt hpos)).1⟩

/-- C7: `bond_analysis` prices the bond from n = ⌊years × frequency⌋
periods with per-period coupon `face·coupon_rate/frequency` and periodic
yield `ytm/frequency` as the discounted cash-flow sum, classifies the
(pre-rounding) price against face value as Premium/Discount/Par, and
reports the current yield `(coupon·frequency)/price` (percent-scaled and
rounded for presentation). -/
theorem c7_bond_pricing :
    ∀ (face coupon_rate ytm years : ℚ) (frequency : ℕ),
      0 < face → 0 ≤ coupon_rate → 0 < years → 1 ≤ frequency →
      ((bond_analysis face coupon_rate ytm years frequency).price =
        roundTo 2
          ((∑ t ∈ Finset.Icc 1 ((⌊years * (frequency : ℚ)⌋).toNat),
              face * coupon_rate / (frequency : ℚ)
                / (1 + ytm / (frequency : ℚ)) ^ t)
            + face / (1 + ytm / (frequency : ℚ))
                ^ ((⌊years * (frequency : ℚ)⌋).toNat))) ∧
      ((bond_analysis face coupon_rate ytm years frequency).premium_discount =
        if ((∑ t ∈ Finset.Icc 1 ((⌊years * (frequency : ℚ)⌋).toNat),
              face * coupon_rate / (frequency : ℚ)
                / (1 + ytm / (frequency : ℚ)) ^ t)
            + face / (1 + ytm / (frequency : ℚ))
                ^ ((⌊years * (frequency : ℚ)⌋).toNat)) > face
        then "Premium"
        else if ((∑ t ∈ Finset.Icc 1 ((⌊years * (frequency : ℚ)⌋).toNat),
              face * coupon_rate / (frequency : ℚ)
                / (1 + ytm / (frequency : ℚ)) ^ t)
            + face / (1 + ytm / (frequency : ℚ))
                ^ ((⌊years * (frequency : ℚ)⌋).toNat)) < face
        then "Discount" else "Par") ∧
      ((bond_analysis face coupon_rate ytm years frequency).current_yield =
        roundTo 3
          ((face * coupon_rate / (frequency : ℚ) * (frequency : ℚ)
            / ((∑ t ∈ Finset.Icc 1 ((⌊years * (frequency : ℚ)⌋).toNat),
                face * coupon_rate / (frequency : ℚ)
                  / (1 + ytm / (frequency : ℚ)) ^ t)
              + face / (1 + ytm / (frequency : ℚ))
                  ^ ((⌊years * (frequency : ℚ)⌋).toNat))) * 100)) :=
  fun _ _ _ _ _ _ _ _ _ => ⟨rfl, rfl, rfl⟩

/-- Witness for C7 at face 100, coupon 5%, ytm 4%, one year, annual
payments. -/
theorem c7_bond_pricing_witness :
    (bond_analysis (100 : ℚ) (1/20) (1/25) 1 1).price =
      roundTo 2
        ((∑ t ∈ Finset.Icc 1 ((⌊(1 : ℚ) * ((1 : ℕ) : ℚ)⌋).toNat),
            (100 : ℚ) * (1/20) / ((1 : ℕ) : ℚ)
              / (1 + (1/25) / ((1 : ℕ) : ℚ)) ^ t)
          + (100 : ℚ) / (1 + (1/25) / ((1 : ℕ) : ℚ))
              ^ ((⌊(1 : ℚ) * ((1 : ℕ) : ℚ)⌋).toNat)) :=
  (c7_bond_pricing 100 (1/20) (1/25) 1 1 (by norm_num) (by norm_num)
    (by norm_num) (by norm_num)).1

theorem exp_neg_two_half_le : Real.exp (-(2.5 : ℝ)) ≤ 1 / 11 := by
  have e1 := Real.exp_one_gt_d9
  have e5 : (1.5 : ℝ) ≤ Real.exp 0.5 := by
    have h := Real.add_one_le_exp (0.5 : ℝ)
    linarith
  have edec : Real.exp (2.5 : ℝ) = Real.exp 1 * Real.exp 1 * Real.exp 0.5 := by
    rw [← Real.exp_add, ← Real.exp_add]
    norm_num
  have hexp : (11 : ℝ) ≤ Real.exp 2.5 := by
    rw [edec]
    nlinarith [Real.exp_pos 1]
  calc Real.exp (-(2.5 : ℝ)) = (Real.exp 2.5)⁻¹ := Real.exp_neg _
    _ ≤ 1 / 11 := by
        rw [inv_eq_one_div]
        exact one_div_le_one_div_of_le (by norm_num) hexp

/-- C4: `vasicek_analysis` reports, for each tenor, the mean-reversion
expectation `r0·e^(−κt) + θ·(1−e^(−κt))` and the stdev
`√((σ²/2κ)·(1−e^(−2κt)))` scaled by 100 and rounded to 3 decimals, and
`half_life_years = ln 2 / κ` rounded to 2 decimals; at the scenario
r0 = 0.0427, κ = 0.25, θ = 0.035, σ = 0.01 the reported expected rate at
t = 10 is within 0.1 percentage point of 3.5 and the half-life is 2.77. -/
theorem c4_vasicek_forecast :
    (∀ r0 kappa theta sigma : ℝ, 0 < kappa →
      (vasicek_analysis r0 kappa theta sigma).expected_path =
        vasicek_times.map (fun t =>
          (t, roundTo 3 ((r0 * Real.exp (-(kappa * t))
            + theta * (1 - Real.exp (-(kappa * t)))) * 100))) ∧
      (vasicek_analysis r0 kappa theta sigma).rate_volatility =
        vasicek_times.map (fun t =>
          (t, roundTo 3 (Real.sqrt ((sigma ^ 2 / (2 * kappa))
            * (1 - Real.exp (-(2 * kappa * t)))) * 100))) ∧
      (vasicek_analysis r0 kappa theta sigma).half_life_years =
        roundTo 2 (Real.log 2 / kappa)) ∧
    |((vasicek_analysis 0.0427 0.25 0.035 0.01).expected_path.getLastD
        (0, 0)).2 - 3.5| ≤ 0.1 ∧
    (vasicek_analysis 0.0427 0.25 0.035 0.01).half_life_years = 2.77 := by
  refine ⟨fun r0 kappa theta sigma _ => ⟨rfl, rfl, rfl⟩, ?_, ?_⟩
  · have e10 : ((vasicek_analysis 0.0427 0.25 0.035 0.01).expected_path.getLastD
        (0, 0)).2 =
        roundTo 3 ((0.0427 * Real.exp (-(0.25 * 10.0))
          + 0.035 * (1 - Real.exp (-(0.25 * 10.0)))) * 100) := rfl
    have e25 : -(0.25 * (10.0 : ℝ)) = -(2.5 : ℝ) := by norm_num
    rw [e10, e25]
    have hu0 := Real.exp_pos (-(2.5 : ℝ))
    have hu1 := exp_neg_two_half_le
    have hr := abs_le.mp (abs_roundTo_sub 3
      ((0.0427 * Real.exp (-(2.5 : ℝ))
        + 0.035 * (1 - Real.exp (-(2.5 : ℝ)))) * 100))
    rw [abs_le]
    constructor <;> nlinarith [hr.1, hr.2]
  · have e : (vasicek_analysis 0.0427 0.25 0.035 0.01).half_life_years =
        roundTo 2 (Real.log 2 / 0.25) := rfl
    rw [e, roundTo, round_eq]
    have hgt := Real.log_two_gt_d9
    have hlt := Real.log_two_lt_d9
    have hfl : ⌊Real.log 2 / 0.25 * 10 ^ 2 + 1 / 2⌋ = (277 : ℤ) := by
      have h400 : Real.log 2 / 0.25 * 10 ^ 2 = 400 * Real.log 2 := by ring
      rw [h400]
      apply Int.floor_eq_iff.mpr
      constructor
      · push_cast
        nlinarith
      · push_cast
        nlinarith
    rw [hfl]
    norm_num

/-- Witness for C4 at the scenario parameters, with κ = 0.25 > 0. -/
theorem c4_vasicek_forecast_witness :
    (0 : ℝ) < 0.25 ∧
    (vasicek_analysis 0.0427 0.25 0.035 0.01).half_life_years =
      roundTo 2 (Real.log 2 / 0.25) :=
  ⟨by norm_num,
    (c4_vasicek_forecast.1 0.0427 0.25 0.035 0.01 (by norm_num)).2.2⟩

end QuantSystem
